import Mathlib

/-!
Shallow embedding of src/youtube_webhook.py: a webhook relay that receives
PubSubHubbub (WebSub) push notifications for YouTube uploads and forwards
alerts to a Discord channel, with chat commands to manage the monitored
channel list.  External collaborators (the Discord gateway, the HTTP
framework, the hub) appear as explicit parameters: each outbound HTTP
attempt or chat send is represented by its outcome, and side effects
(messages sent, hub requests issued, the persisted accounts.json document)
are returned as data.
-/

set_option synthInstance.maxSize 1024

namespace YTWebhook

/-- Python str() of an optional string: f-string interpolation renders
None as the text None (as in message = f"... {title} ..." when
title_elem.text is None). -/
def pyStr : Option String → String
  | none => "None"
  | some s => s

/-- Python str.lower (ASCII lowering, as used on action/platform arguments). -/
def pyLower (s : String) : String := ⟨s.data.map Char.toLower⟩

/-- Dedup key stored in the sent_messages cache: (str(channel.id), tag,
time.time() // 10).  The third component is the coarse 10-second bucket. -/
abbrev MsgKey := String × String × Nat

/-- The sent_messages cache: defaultdict(list) mapping a channel-id string to
the list of (message_key, nonce) pairs appended for that channel, modelled as
an insertion-ordered association list. -/
abbrev SentCache := List (String × List (MsgKey × String))

/-- sent_messages[chan]: the per-channel list, empty when the channel has no
entry yet (defaultdict(list) semantics). -/
def cacheGet : SentCache → String → List (MsgKey × String)
  | [], _ => []
  | p :: rest, chan => if p.1 = chan then p.2 else cacheGet rest chan

/-- any(key == message_key for key, _ in sent_messages[chan]): the duplicate
guard run at the top of every command and before each notification send. -/
def keyInCache (cache : SentCache) (chan : String) (k : MsgKey) : Bool :=
  (cacheGet cache chan).any (fun e => e.1 == k)

/-- sent_messages[chan].append((message_key, nonce)). -/
def cacheAppend : SentCache → String → (MsgKey × String) → SentCache
  | [], chan, entry => [(chan, [entry])]
  | p :: rest, chan, entry =>
    if p.1 = chan then (p.1, p.2 ++ [entry]) :: rest
    else p :: cacheAppend rest chan entry

/-- Parsed XML element as produced by xml.etree.ElementTree: a namespace URI
(empty string for an unqualified element), a local name, optional text and
child elements.  ElementTree stores a namespaced tag as the URI plus the
local name, which the ns/localName pair captures. -/
inductive XmlElem : Type where
  | mk (ns localName : String) (text : Option String) (children : List XmlElem)

/-- Namespace URI of an element (empty for an unqualified tag). -/
def XmlElem.ns : XmlElem → String
  | .mk n _ _ _ => n

/-- Local tag name of an element. -/
def XmlElem.localName : XmlElem → String
  | .mk _ l _ _ => l

/-- Text content of an element; ElementTree reports an empty element's text
as None. -/
def XmlElem.text : XmlElem → Option String
  | .mk _ _ t _ => t

mutual

/-- All proper descendants of an element in document (pre-)order, the
sequence searched by ElementTree find(".//tag"). -/
def XmlElem.descendants : XmlElem → List XmlElem
  | .mk _ _ _ cs => descendantsList cs

/-- Descendant traversal of a child list, document order. -/
def descendantsList : List XmlElem → List XmlElem
  | [] => []
  | c :: cs => c :: XmlElem.descendants c ++ descendantsList cs

end

/-- root.find(".//prefix:local", namespaces): the first descendant whose tag
is exactly match the given namespace URI and local name.  An element with no
namespace never matches a prefixed pattern. -/
def findElem (root : XmlElem) (nsUri localName : String) : Option XmlElem :=
  root.descendants.find? (fun e => e.ns == nsUri && e.localName == localName)

/-- Atom namespace URI bound to the atom prefix in handle_webhook. -/
def atomNS : String := "http://www.w3.org/2005/Atom"

/-- YouTube schema namespace URI bound to the yt prefix in handle_webhook. -/
def ytNS : String := "http://www.youtube.com/xml/schemas/2015"

/-- JSON object returned by the POST /webhook handler: status is "ok" or
"error"; message is present only on the error objects. -/
structure WebhookResult where
  status : String
  message : Option String
deriving Repr, DecidableEq

/-- GET /webhook handler webhook_verify: returns the hub.challenge query
parameter as the body; a normally-returning handler is served with HTTP 200.
Modelled as the (status, body) pair. -/
def webhook_verify (hub_challenge : String) : Nat × String :=
  (200, hub_challenge)

/-- Announcement text built in handle_webhook:
f"New YouTube video: \x7btitle\x7d\nhttps://www.youtube.com/watch?v=\x7bvideo_id\x7d". -/
def notifMessage (title video_id : Option String) : String :=
  "New YouTube video: " ++ pyStr title ++ "\nhttps://www.youtube.com/watch?v=" ++ pyStr video_id

/-- Dedup key computed in handle_webhook:
(str(channel.id), f"notification-\x7bvideo_id\x7d", time.time() // 10). -/
def notificationKey (chanId : Nat) (video_id : Option String) (now : Nat) : MsgKey :=
  (toString chanId, "notification-" ++ pyStr video_id, now / 10)

/-- POST /webhook handler handle_webhook.  Inputs: the ElementTree parse
outcome of the request body (none = ET.ParseError), the bot.get_channel
lookup result (the configured channel id when found), whether channel.send
succeeds (sendErr is str(e) of the exception when it does not), the random
nonce, the current time in seconds, and the sent_messages cache.  Output:
the JSON status object, the updated cache, and the chat messages delivered
as (channel id, text) pairs. -/
def handle_webhook (parseResult : Option XmlElem) (channel : Option Nat) (sendOk : Bool)
    (sendErr : String) (nonce : String) (now : Nat) (cache : SentCache) :
    WebhookResult × SentCache × List (Nat × String) :=
  match parseResult with
  | none => (⟨"error", some "Invalid XML"⟩, cache, [])
  | some root =>
    match findElem root ytNS "videoId", findElem root atomNS "title" with
    | some video_id_elem, some title_elem =>
      match channel with
      | none => (⟨"ok", none⟩, cache, [])
      | some chanId =>
        if keyInCache cache (toString chanId) (notificationKey chanId video_id_elem.text now) then
          (⟨"ok", none⟩, cache, [])
        else
          if sendOk then
            (⟨"ok", none⟩,
             cacheAppend cache (toString chanId) (notificationKey chanId video_id_elem.text now, nonce),
             [(chanId, notifMessage title_elem.text video_id_elem.text)])
          else
            (⟨"error", some sendErr⟩,
             cacheAppend cache (toString chanId) (notificationKey chanId video_id_elem.text now, nonce),
             [])
    | _, _ => (⟨"error", some "Invalid webhook data"⟩, cache, [])

/-- Outcome of one outbound HTTP attempt: an HTTP response with status code
and body text, or a requests.RequestException with its message. -/
inductive AttemptOutcome : Type where
  | status (code : Nat) (body : String)
  | netError (msg : String)
deriving Repr, DecidableEq

/-- Form payload of one hub request (the data dict of the requests.post call
to https://pubsubhubbub.appspot.com/subscribe). -/
structure SubscriptionRequest where
  mode : String
  topic : String
  callback : String
  verify : Option String
deriving Repr, DecidableEq

/-- Feed URL templated with the channel id (hub.topic). -/
def feedTopic (channel_id : String) : String :=
  "https://www.youtube.com/feeds/videos.xml?channel_id=" ++ channel_id

/-- Subscribe request issued by subscribe_channel (hub.verify=async). -/
def subRequest (webhookUrl channel_id : String) : SubscriptionRequest :=
  ⟨"subscribe", feedTopic channel_id, webhookUrl, some "async"⟩

/-- Unsubscribe request issued by the remove branch of monitor (no
hub.verify field). -/
def unsubRequest (webhookUrl channel_id : String) : SubscriptionRequest :=
  ⟨"unsubscribe", feedTopic channel_id, webhookUrl, none⟩

/-- Retry loop of subscribe_channel: for attempt in range(retries), one POST
per attempt; status 202 returns True at once, any other status or a network
error falls through to the next attempt.  Arguments: the outcome of each
attempt by index, the next attempt index, the remaining attempts.  Returns
(success, total attempts made). -/
def subscribeLoop (f : Nat → AttemptOutcome) : Nat → Nat → Bool × Nat
  | attempt, 0 => (false, attempt)
  | attempt, remaining + 1 =>
    match f attempt with
    | .status code _ =>
      if code = 202 then (true, attempt + 1)
      else subscribeLoop f (attempt + 1) remaining
    | .netError _ => subscribeLoop f (attempt + 1) remaining

/-- subscribe_channel(channel_id, retries, delay): True when some attempt
got HTTP 202 from the hub, False after exhausting retries.  The requests
issued are identical (subRequest), so the attempt count returned with the
flag records the hub traffic. -/
def subscribe_channel (f : Nat → AttemptOutcome) (retries : Nat) : Bool × Nat :=
  subscribeLoop f 0 retries

/-- Process state touched by the monitor command: the in-memory
YOUTUBE_CHANNELS list, the list last written to accounts.json by
save_accounts, and the sent_messages cache. -/
structure MonState where
  channels : List String
  persisted : List String
  cache : SentCache
deriving Repr, DecidableEq

/-- Dedup key of a monitor invocation:
(str(ctx.channel.id), f"monitor-\x7baction\x7d-\x7bplatform\x7d-\x7bchannel_id\x7d", time.time() // 10). -/
def monitorKey (ctxChan : Nat) (action platform channel_id : String) (now : Nat) : MsgKey :=
  (toString ctxChan, "monitor-" ++ action ++ "-" ++ platform ++ "-" ++ channel_id, now / 10)

/-- Chat command monitor(ctx, action, platform, channel_id).  Inputs beyond
the command arguments: the invoking channel id, the nonce, current time,
the per-attempt outcomes of the subscribe handshake, the outcome of the
single unsubscribe POST, and the current state.  Output: the new state, the
ctx.send replies in order, and the hub requests issued. -/
def monitor (webhookUrl : String) (ctxChan : Nat) (action platform channel_id nonce : String)
    (now : Nat) (subOutcome : Nat → AttemptOutcome) (unsubOutcome : AttemptOutcome)
    (st : MonState) : MonState × List String × List SubscriptionRequest :=
  if keyInCache st.cache (toString ctxChan) (monitorKey ctxChan action platform channel_id now) then
    (st, [], [])
  else
    let cache1 := cacheAppend st.cache (toString ctxChan)
      (monitorKey ctxChan action platform channel_id now, nonce)
    if pyLower platform ≠ "youtube" then
      (⟨st.channels, st.persisted, cache1⟩, ["Only YouTube is supported!"], [])
    else if pyLower action = "add" then
      if channel_id ∈ st.channels then
        (⟨st.channels, st.persisted, cache1⟩,
         ["Channel " ++ channel_id ++ " is already monitored"], [])
      else
        let channels1 := st.channels ++ [channel_id]
        let result := subscribe_channel subOutcome 3
        (⟨channels1, channels1, cache1⟩,
         [if result.1 then "Successfully added YouTube channel " ++ channel_id
          else "Failed to subscribe to " ++ channel_id ++ " after retries. Check logs."],
         List.replicate result.2 (subRequest webhookUrl channel_id))
    else if pyLower action = "remove" then
      if channel_id ∉ st.channels then
        (⟨st.channels, st.persisted, cache1⟩,
         ["Channel " ++ channel_id ++ " is not monitored"], [])
      else
        let channels1 := st.channels.erase channel_id
        (⟨channels1, channels1, cache1⟩,
         [match unsubOutcome with
          | .status code _ =>
            if code = 202 then "Successfully removed YouTube channel " ++ channel_id
            else "Unsubscribe request failed for " ++ channel_id ++ ". Check logs."
          | .netError e => "Error unsubscribing from " ++ channel_id ++ ": " ++ e],
         [unsubRequest webhookUrl channel_id])
    else
      (⟨st.channels, st.persisted, cache1⟩,
       ["Invalid action. Use \x27add\x27 or \x27remove\x27."], [])

/-- Chat command ping(ctx).  cpu, mem, lat stand for the psutil and latency
readings interpolated into the reply; sendOk is whether ctx.send succeeds
(sendErr is str(e) when it raises, answered by the except branch).  Output:
updated cache and replies sent. -/
def ping (ctxChan : Nat) (nonce : String) (now : Nat) (cpu mem lat : String)
    (sendOk : Bool) (sendErr : String) (cache : SentCache) : SentCache × List String :=
  if keyInCache cache (toString ctxChan) (toString ctxChan, "ping", now / 10) then
    (cache, [])
  else
    let cache1 := cacheAppend cache (toString ctxChan) ((toString ctxChan, "ping", now / 10), nonce)
    if sendOk then
      (cache1, ["Pong! Bot is online.\nServer: CPU=" ++ cpu ++ "%, Memory=" ++ mem ++
        "% used\nLatency: " ++ lat ++ "ms"])
    else
      (cache1, ["Ping failed: " ++ sendErr])

/-- Chat command test(ctx).  configChan is CHANNEL_ID, channelFound is
whether bot.get_channel finds it; sendOk models the guarded sends (when
false the first ctx.send raises and the except branch replies).  The body
re-runs the duplicate guard for the test-channel and test-success keys
before each further send. -/
def test (ctxChan : Nat) (nonce : String) (now : Nat) (configChan : Nat)
    (channelFound : Bool) (sendOk : Bool) (sendErr : String) (cache : SentCache) :
    SentCache × List String :=
  if keyInCache cache (toString ctxChan) (toString ctxChan, "test", now / 10) then
    (cache, [])
  else
    let cache1 := cacheAppend cache (toString ctxChan) ((toString ctxChan, "test", now / 10), nonce)
    if !sendOk then
      (cache1, ["Test failed: " ++ sendErr])
    else
      let sent1 := ["Bot is online and working! Checking channel access..."]
      if channelFound then
        if keyInCache cache1 (toString configChan) (toString configChan, "test-channel", now / 10) then
          (cache1, sent1)
        else
          let cache2 := cacheAppend cache1 (toString configChan)
            ((toString configChan, "test-channel", now / 10), nonce ++ "-channel")
          let sent2 := sent1 ++
            ["Test message from bot to confirm access to channel " ++ toString configChan]
          if keyInCache cache2 (toString ctxChan) (toString ctxChan, "test-success", now / 10) then
            (cache2, sent2)
          else
            let cache3 := cacheAppend cache2 (toString ctxChan)
              ((toString ctxChan, "test-success", now / 10), nonce ++ "-success")
            (cache3, sent2 ++
              ["Successfully sent test message to configured channel " ++ toString configChan])
      else
        (cache1, sent1 ++ ["Error: Bot cannot access channel " ++ toString configChan])

/-- Chat command status(ctx): after the duplicate guard it lists
YOUTUBE_CHANNELS and opportunistically re-runs subscribe_channel for each
entry (the repair sweep), then sends a single summary reply.  subOutcome
gives the per-attempt hub outcomes for each channel id. -/
def status (ctxChan : Nat) (nonce : String) (now : Nat) (channels : List String)
    (subOutcome : String → Nat → AttemptOutcome) (cache : SentCache) :
    SentCache × List String :=
  if keyInCache cache (toString ctxChan) (toString ctxChan, "status", now / 10) then
    (cache, [])
  else
    let cache1 := cacheAppend cache (toString ctxChan) ((toString ctxChan, "status", now / 10), nonce)
    if channels = [] then
      (cache1, ["No YouTube channels are currently monitored."])
    else
      (cache1,
       [channels.foldl (fun acc channel_id =>
          acc ++ "- " ++ channel_id ++ "\n" ++
            (if (subscribe_channel (subOutcome channel_id) 3).1 then
              "  Subscription verified for " ++ channel_id ++ "\n"
            else
              "  Failed to verify subscription for " ++ channel_id ++ "\n"))
          "Monitored YouTube channels:\n"])

/-- Retry loop of testwebhook: up to retries POSTs of the synthetic payload
to WEBHOOK_URL; HTTP 200 replies success and stops, another status replies a
failure line and retries, a network error records last_error and retries;
exhaustion replies with last_error or the Unknown error text. -/
def testwebhookLoop (postOutcome : Nat → AttemptOutcome) (retries : Nat) :
    Nat → Nat → Option String → List String
  | _, 0, lastError =>
    ["Testwebhook failed after " ++ toString retries ++ " attempts: " ++
      lastError.getD "Unknown error"]
  | attempt, remaining + 1, lastError =>
    match postOutcome attempt with
    | .status code body =>
      if code = 200 then
        ["Test webhook sent successfully. Check Discord channel for notification."]
      else
        ("Test webhook failed: status=" ++ toString code ++ ", response=" ++ body) ::
          testwebhookLoop postOutcome retries (attempt + 1) remaining lastError
    | .netError e => testwebhookLoop postOutcome retries (attempt + 1) remaining (some e)

/-- Chat command testwebhook(ctx): duplicate guard, then the self-test POST
loop with retries = 3. -/
def testwebhook (ctxChan : Nat) (nonce : String) (now : Nat)
    (postOutcome : Nat → AttemptOutcome) (cache : SentCache) : SentCache × List String :=
  if keyInCache cache (toString ctxChan) (toString ctxChan, "testwebhook", now / 10) then
    (cache, [])
  else
    let cache1 := cacheAppend cache (toString ctxChan)
      ((toString ctxChan, "testwebhook", now / 10), nonce)
    (cache1, testwebhookLoop postOutcome 3 0 3 none)

/-- Substring containment, used to state what the announcement text carries. -/
def strContains (s sub : String) : Prop := ∃ a b, s = a ++ sub ++ b

/-- Namespaced feed document with video id v1 and title Hello, as the hub
delivers it (elements qualified with the declared atom and yt namespaces). -/
def nsDoc : XmlElem :=
  .mk atomNS "feed" none
    [.mk atomNS "entry" none
      [.mk ytNS "videoId" (some "v1") [], .mk atomNS "title" (some "Hello") []]]

/-- The same feed but with every element unqualified (no namespace declared
in the document). -/
def unqualifiedDoc : XmlElem :=
  .mk "" "feed" none
    [.mk "" "entry" none
      [.mk "" "videoId" (some "v1") [], .mk "" "title" (some "Hello") []]]

/-- Feed whose title element is present but empty: ElementTree reports its
text as None. -/
def emptyTitleDoc : XmlElem :=
  .mk atomNS "feed" none
    [.mk atomNS "entry" none
      [.mk ytNS "videoId" (some "v1") [], .mk atomNS "title" none []]]

/-- Appending an entry for a channel extends exactly that channel's list. -/
theorem cacheGet_cacheAppend (cache : SentCache) (chan : String) (e : MsgKey × String) :
    cacheGet (cacheAppend cache chan e) chan = cacheGet cache chan ++ [e] := by
  induction cache with
  | nil => simp [cacheAppend, cacheGet]
  | cons p rest ih =>
    by_cases h : p.1 = chan
    · simp [cacheAppend, cacheGet, h]
    · simp [cacheAppend, cacheGet, h, ih]

/-- The duplicate guard after an append sees the old entries plus the new key. -/
theorem keyInCache_cacheAppend (cache : SentCache) (chan : String) (k : MsgKey) (n : String)
    (k2 : MsgKey) :
    keyInCache (cacheAppend cache chan (k, n)) chan k2 =
      (keyInCache cache chan k2 || (k == k2)) := by
  simp [keyInCache, cacheGet_cacheAppend, List.any_append]

/-- A key just appended is seen by the duplicate guard. -/
theorem keyInCache_cacheAppend_self (cache : SentCache) (chan : String) (k : MsgKey)
    (n : String) : keyInCache (cacheAppend cache chan (k, n)) chan k = true := by
  simp [keyInCache_cacheAppend]

/-- String append is left-cancellative. -/
theorem string_append_left_cancel (s a b : String) (h : s ++ a = s ++ b) : a = b := by
  have h2 := congrArg String.data h
  simp only [String.data_append, List.append_cancel_left_eq] at h2
  exact String.ext h2

/-- C1: for every challenge token t, a GET request to /webhook with query
parameter hub.challenge=t returns status 200 with a response body that is
exactly t, verbatim. -/
theorem C1_webhook_verify_echoes_challenge (t : String) :
    webhook_verify t = (200, t) := rfl

/-- C2 counterexample: a feed whose title element is present but empty (text
None) is not rejected: the handler returns the ok status object and sends
one chat message (with the title rendered as None), although the claim says
an empty title field yields a structured error and zero messages. -/
theorem C2_cex_empty_title_is_relayed :
    handle_webhook (some emptyTitleDoc) (some 42) true "boom" "n0" 100 [] =
      (⟨"ok", none⟩,
       [("42", [(("42", "notification-v1", 10), "n0")])],
       [(42, "New YouTube video: None\nhttps://www.youtube.com/watch?v=v1")]) := by
  decide

/-- Shared lemma: when either find comes back None the handler answers the
Invalid-webhook-data error object, touches nothing and sends nothing. -/
theorem handle_webhook_missing_elem (root : XmlElem) (channel : Option Nat)
    (sendOk : Bool) (sendErr nonce : String) (now : Nat) (cache : SentCache)
    (h : findElem root ytNS "videoId" = none ∨ findElem root atomNS "title" = none) :
    handle_webhook (some root) channel sendOk sendErr nonce now cache =
      (⟨"error", some "Invalid webhook data"⟩, cache, []) := by
  rcases h with h | h
  · simp [handle_webhook, h]
  · rcases hv : findElem root ytNS "videoId" with _ | ve
    · simp [handle_webhook, hv]
    · simp [handle_webhook, hv, h]

/-- Shared lemma: both finds succeed, the channel is found, the key is fresh
and the send goes through: one message is delivered and the key recorded. -/
theorem handle_webhook_delivers (root ve te : XmlElem) (chanId : Nat)
    (sendErr nonce : String) (now : Nat) (cache : SentCache)
    (hv : findElem root ytNS "videoId" = some ve)
    (ht : findElem root atomNS "title" = some te)
    (hfresh : keyInCache cache (toString chanId) (notificationKey chanId ve.text now) = false) :
    handle_webhook (some root) (some chanId) true sendErr nonce now cache =
      (⟨"ok", none⟩,
       cacheAppend cache (toString chanId) (notificationKey chanId ve.text now, nonce),
       [(chanId, notifMessage te.text ve.text)]) := by
  simp [handle_webhook, hv, ht, hfresh]

/-- Shared lemma: both finds succeed but the key is already cached: the
handler acknowledges with the ok object and sends nothing. -/
theorem handle_webhook_suppressed (root ve te : XmlElem) (chanId : Nat) (sendOk : Bool)
    (sendErr nonce : String) (now : Nat) (cache : SentCache)
    (hv : findElem root ytNS "videoId" = some ve)
    (ht : findElem root atomNS "title" = some te)
    (hdup : keyInCache cache (toString chanId) (notificationKey chanId ve.text now) = true) :
    handle_webhook (some root) (some chanId) sendOk sendErr nonce now cache =
      (⟨"ok", none⟩, cache, []) := by
  simp [handle_webhook, hv, ht, hdup]

/-- C2 (amended): if the videoId element or the title element is missing
from the delivered XML, the handler rejects the event with the structured
error object and sends zero chat messages; emptiness of a present element
is not checked (a present-but-empty element is relayed). -/
theorem C2_missing_field_rejected (root : XmlElem) (channel : Option Nat)
    (sendOk : Bool) (sendErr nonce : String) (now : Nat) (cache : SentCache)
    (h : findElem root ytNS "videoId" = none ∨ findElem root atomNS "title" = none) :
    handle_webhook (some root) channel sendOk sendErr nonce now cache =
      (⟨"error", some "Invalid webhook data"⟩, cache, []) :=
  handle_webhook_missing_elem root channel sendOk sendErr nonce now cache h

/-- C2 witness: a feed carrying a videoId but no title element at all is
rejected with the error object and no message. -/
theorem C2_missing_field_rejected_witness :
    handle_webhook
      (some (.mk atomNS "feed" none [.mk atomNS "entry" none [.mk ytNS "videoId" (some "v1") []]]))
      (some 42) true "boom" "n0" 100 [] =
      (⟨"error", some "Invalid webhook data"⟩, [], []) :=
  C2_missing_field_rejected
    (.mk atomNS "feed" none [.mk atomNS "entry" none [.mk ytNS "videoId" (some "v1") []]])
    (some 42) true "boom" "n0" 100 [] (Or.inr rfl)

/-- C3 counterexample: when the chat send fails (raises), the handler does
not return the success object: it answers the structured error object
carrying str(e), so the response is not the same success status object as
on successful delivery. -/
theorem C3_cex_send_failure_returns_error_object :
    (handle_webhook (some nsDoc) (some 42) false "Missing Permissions" "n0" 100 []).1 =
      ⟨"error", some "Missing Permissions"⟩ ∧
    (handle_webhook (some nsDoc) (some 42) false "Missing Permissions" "n0" 100 []).1 ≠
      (handle_webhook (some nsDoc) (some 42) true "Missing Permissions" "n0" 100 []).1 := by
  decide

/-- C3 (amended): an unreachable destination channel (lookup returns None)
is swallowed: the handler still answers the success object and sends
nothing; but a chat send that raises is answered with the structured error
object carrying str(e) — still a normal JSON response to the hub, though
not the success object.  In both cases no message is delivered and no
exception escapes the handler. -/
theorem C3_downstream_failure_semantics (root ve te : XmlElem) (chanId : Nat)
    (sendOk : Bool) (sendErr nonce : String) (now : Nat) (cache : SentCache)
    (hv : findElem root ytNS "videoId" = some ve)
    (ht : findElem root atomNS "title" = some te)
    (hfresh : keyInCache cache (toString chanId) (notificationKey chanId ve.text now) = false) :
    handle_webhook (some root) none sendOk sendErr nonce now cache =
      (⟨"ok", none⟩, cache, []) ∧
    handle_webhook (some root) (some chanId) false sendErr nonce now cache =
      (⟨"error", some sendErr⟩,
       cacheAppend cache (toString chanId) (notificationKey chanId ve.text now, nonce),
       []) := by
  constructor
  · simp [handle_webhook, hv, ht]
  · simp [handle_webhook, hv, ht, hfresh]

/-- C3 witness: the two downstream-failure shapes at a concrete delivery. -/
theorem C3_downstream_failure_semantics_witness :
    handle_webhook (some nsDoc) none true "boom" "n0" 100 [] = (⟨"ok", none⟩, [], []) ∧
    handle_webhook (some nsDoc) (some 42) false "boom" "n0" 100 [] =
      (⟨"error", some "boom"⟩, [("42", [(("42", "notification-v1", 10), "n0")])], []) :=
  C3_downstream_failure_semantics nsDoc (.mk ytNS "videoId" (some "v1") [])
    (.mk atomNS "title" (some "Hello") []) 42 true "boom" "n0" 100 [] rfl rfl rfl

/-- C4 counterexample: the same feed entry delivered without namespace
qualification is rejected with the error object rather than parsed, and the
two forms do not lead to the same outcome. -/
theorem C4_cex_unqualified_rejected :
    handle_webhook (some unqualifiedDoc) (some 42) true "boom" "n0" 100 [] =
      (⟨"error", some "Invalid webhook data"⟩, [], []) ∧
    handle_webhook (some unqualifiedDoc) (some 42) true "boom" "n0" 100 [] ≠
      handle_webhook (some nsDoc) (some 42) true "boom" "n0" 100 [] := by
  decide

/-- C4 (amended): extraction succeeds when the videoId and title elements
appear under the declared yt and atom namespaces, but unqualified
(prefix-free) element names are not matched: a body whose elements all
carry no namespace is rejected with the structured error object. -/
theorem C4_extraction_namespaced_only (root : XmlElem) (channel : Option Nat)
    (sendOk : Bool) (sendErr nonce : String) (now : Nat) (cache : SentCache) :
    ((∀ e ∈ root.descendants, e.ns = "") →
      handle_webhook (some root) channel sendOk sendErr nonce now cache =
        (⟨"error", some "Invalid webhook data"⟩, cache, [])) ∧
    (∀ ve te : XmlElem, ∀ chanId : Nat,
      findElem root ytNS "videoId" = some ve →
      findElem root atomNS "title" = some te →
      keyInCache cache (toString chanId) (notificationKey chanId ve.text now) = false →
      handle_webhook (some root) (some chanId) true sendErr nonce now cache =
        (⟨"ok", none⟩,
         cacheAppend cache (toString chanId) (notificationKey chanId ve.text now, nonce),
         [(chanId, notifMessage te.text ve.text)])) := by
  constructor
  · intro hunq
    apply handle_webhook_missing_elem
    left
    rw [findElem, List.find?_eq_none]
    intro e he
    rw [hunq e he]
    simp [ytNS]
  · intro ve te chanId hv ht hfresh
    exact handle_webhook_delivers root ve te chanId sendErr nonce now cache hv ht hfresh

/-- C4 witness: the unqualified document is rejected while the namespaced
document with the same content is parsed and relayed. -/
theorem C4_extraction_namespaced_only_witness :
    handle_webhook (some unqualifiedDoc) (some 42) true "boom" "n0" 100 [] =
      (⟨"error", some "Invalid webhook data"⟩, [], []) ∧
    handle_webhook (some nsDoc) (some 42) true "boom" "n0" 100 [] =
      (⟨"ok", none⟩, [("42", [(("42", "notification-v1", 10), "n0")])],
       [(42, "New YouTube video: Hello\nhttps://www.youtube.com/watch?v=v1")]) :=
  ⟨(C4_extraction_namespaced_only unqualifiedDoc (some 42) true "boom" "n0" 100 []).1
      (by decide),
   (C4_extraction_namespaced_only nsDoc (some 42) true "boom" "n0" 100 []).2
      (.mk ytNS "videoId" (some "v1") []) (.mk atomNS "title" (some "Hello") []) 42 rfl rfl rfl⟩

/-- Namespaced feed document with a different video id v2 and title World. -/
def nsDoc2 : XmlElem :=
  .mk atomNS "feed" none
    [.mk atomNS "entry" none
      [.mk ytNS "videoId" (some "v2") [], .mk atomNS "title" (some "World") []]]

/-- C8: a content-delivery POST with a valid entry carrying video id v and
title t produces exactly one outbound chat message, that message contains
both t and a watch URL containing v, and a second identical POST within
the same dedup bucket is acknowledged with zero additional messages. -/
theorem C8_single_delivery_then_dedup (root ve te : XmlElem) (v t : String) (chanId : Nat)
    (sendErr nonce1 nonce2 sendErr2 : String) (sendOk2 : Bool) (now : Nat) (cache : SentCache)
    (hv : findElem root ytNS "videoId" = some ve) (hvt : ve.text = some v)
    (ht : findElem root atomNS "title" = some te) (htt : te.text = some t)
    (hfresh : keyInCache cache (toString chanId) (notificationKey chanId ve.text now) = false) :
    (handle_webhook (some root) (some chanId) true sendErr nonce1 now cache).2.2 =
      [(chanId, notifMessage (some t) (some v))] ∧
    strContains (notifMessage (some t) (some v)) t ∧
    strContains (notifMessage (some t) (some v)) ("https://www.youtube.com/watch?v=" ++ v) ∧
    handle_webhook (some root) (some chanId) sendOk2 sendErr2 nonce2 now
        (handle_webhook (some root) (some chanId) true sendErr nonce1 now cache).2.1 =
      (⟨"ok", none⟩,
       (handle_webhook (some root) (some chanId) true sendErr nonce1 now cache).2.1, []) := by
  have h1 := handle_webhook_delivers root ve te chanId sendErr nonce1 now cache hv ht hfresh
  refine ⟨?_, ?_, ?_, ?_⟩
  · rw [h1, hvt, htt]
  · refine ⟨"New YouTube video: ", "\nhttps://www.youtube.com/watch?v=" ++ v, ?_⟩
    simp [notifMessage, pyStr, String.append_assoc]
  · refine ⟨"New YouTube video: " ++ t ++ "\n", "", ?_⟩
    have hsplit : ("\nhttps://www.youtube.com/watch?v=" : String) =
        "\n" ++ "https://www.youtube.com/watch?v=" := by decide
    simp only [notifMessage, pyStr, String.append_empty]
    rw [hsplit]
    simp only [String.append_assoc]
  · simp only [h1]
    exact handle_webhook_suppressed root ve te chanId sendOk2 sendErr2 nonce2 now _ hv ht
      (keyInCache_cacheAppend_self cache (toString chanId) _ nonce1)

/-- C8 witness: the delivery and dedup behaviour at the concrete v1/Hello
feed. -/
theorem C8_single_delivery_then_dedup_witness :
    (handle_webhook (some nsDoc) (some 42) true "boom" "n1" 100 []).2.2 =
      [(42, notifMessage (some "Hello") (some "v1"))] ∧
    strContains (notifMessage (some "Hello") (some "v1")) "Hello" ∧
    strContains (notifMessage (some "Hello") (some "v1"))
      ("https://www.youtube.com/watch?v=" ++ "v1") ∧
    handle_webhook (some nsDoc) (some 42) true "boom" "n2" 100
        (handle_webhook (some nsDoc) (some 42) true "boom" "n1" 100 []).2.1 =
      (⟨"ok", none⟩,
       (handle_webhook (some nsDoc) (some 42) true "boom" "n1" 100 []).2.1, []) :=
  C8_single_delivery_then_dedup nsDoc (.mk ytNS "videoId" (some "v1") [])
    (.mk atomNS "title" (some "Hello") []) "v1" "Hello" 42 "boom" "n1" "n2" "boom" true 100 []
    rfl rfl rfl rfl rfl

/-- C9 counterexample: two successfully parsed deliveries to the same
channel in the same bucket with different video ids map to different keys
and the second one is sent, not suppressed; and the key is not the
video-id-free triple the claim describes. -/
theorem C9_cex_different_videos_not_suppressed :
    (handle_webhook (some nsDoc2) (some 42) true "boom" "n2" 100
        (handle_webhook (some nsDoc) (some 42) true "boom" "n1" 100 []).2.1).2.2 ≠ [] ∧
    notificationKey 42 (some "v1") 100 ≠ notificationKey 42 (some "v2") 100 ∧
    notificationKey 42 (some "v1") 100 ≠ ("42", "notification", 10) := by
  decide

/-- C9 (amended): the dedup key computed for a delivery is
(str(channel.id), "notification-" plus the video id, coarse time bucket):
the video id is part of the key.  Hence a second parsed delivery to the
same channel in the same bucket is suppressed exactly when it carries the
same video id; one with a different video id maps to a fresh key and is
delivered. -/
theorem C9_dedup_key_contains_video_id (root1 ve1 te1 root2 ve2 te2 : XmlElem)
    (chanId : Nat) (e1 e2 n1 n2 : String) (sendOk2 : Bool) (now : Nat) (cache : SentCache)
    (hv1 : findElem root1 ytNS "videoId" = some ve1)
    (ht1 : findElem root1 atomNS "title" = some te1)
    (hv2 : findElem root2 ytNS "videoId" = some ve2)
    (ht2 : findElem root2 atomNS "title" = some te2)
    (hfresh1 : keyInCache cache (toString chanId) (notificationKey chanId ve1.text now) = false) :
    notificationKey chanId ve1.text now =
      (toString chanId, "notification-" ++ pyStr ve1.text, now / 10) ∧
    (ve2.text = ve1.text →
      handle_webhook (some root2) (some chanId) sendOk2 e2 n2 now
          (handle_webhook (some root1) (some chanId) true e1 n1 now cache).2.1 =
        (⟨"ok", none⟩,
         (handle_webhook (some root1) (some chanId) true e1 n1 now cache).2.1, [])) ∧
    (pyStr ve2.text ≠ pyStr ve1.text →
      keyInCache cache (toString chanId) (notificationKey chanId ve2.text now) = false →
      (handle_webhook (some root2) (some chanId) true e2 n2 now
          (handle_webhook (some root1) (some chanId) true e1 n1 now cache).2.1).2.2 =
        [(chanId, notifMessage te2.text ve2.text)]) := by
  have h1 := handle_webhook_delivers root1 ve1 te1 chanId e1 n1 now cache hv1 ht1 hfresh1
  refine ⟨rfl, fun hsame => ?_, fun hdiff hfresh2 => ?_⟩
  · simp only [h1]
    exact handle_webhook_suppressed root2 ve2 te2 chanId sendOk2 e2 n2 now _ hv2 ht2
      (by rw [hsame]; exact keyInCache_cacheAppend_self cache (toString chanId) _ n1)
  · simp only [h1]
    have hkeys : notificationKey chanId ve1.text now ≠ notificationKey chanId ve2.text now := by
      intro hk
      simp only [notificationKey, Prod.mk.injEq] at hk
      exact hdiff (string_append_left_cancel "notification-" _ _ hk.2.1).symm
    have hfresh2b : keyInCache
        (cacheAppend cache (toString chanId) (notificationKey chanId ve1.text now, n1))
        (toString chanId) (notificationKey chanId ve2.text now) = false := by
      rw [keyInCache_cacheAppend, hfresh2]
      simp [hkeys]
    rw [handle_webhook_delivers root2 ve2 te2 chanId e2 n2 now _ hv2 ht2 hfresh2b]

/-- C9 witness: a same-video repeat is suppressed, a different-video
delivery in the same bucket is sent. -/
theorem C9_dedup_key_contains_video_id_witness :
    notificationKey 42 (some "v1") 100 = ("42", "notification-" ++ pyStr (some "v1"), 10) ∧
    handle_webhook (some nsDoc) (some 42) false "boom2" "n2" 100
        (handle_webhook (some nsDoc) (some 42) true "boom" "n1" 100 []).2.1 =
      (⟨"ok", none⟩,
       (handle_webhook (some nsDoc) (some 42) true "boom" "n1" 100 []).2.1, []) ∧
    (handle_webhook (some nsDoc2) (some 42) true "boom2" "n2" 100
        (handle_webhook (some nsDoc) (some 42) true "boom" "n1" 100 []).2.1).2.2 =
      [(42, notifMessage (some "World") (some "v2"))] := by
  have h := C9_dedup_key_contains_video_id nsDoc (.mk ytNS "videoId" (some "v1") [])
    (.mk atomNS "title" (some "Hello") []) nsDoc (.mk ytNS "videoId" (some "v1") [])
    (.mk atomNS "title" (some "Hello") []) 42 "boom" "boom2" "n1" "n2" false 100 []
    rfl rfl rfl rfl rfl
  exact ⟨h.1, h.2.1 rfl, by
    have h2 := C9_dedup_key_contains_video_id nsDoc (.mk ytNS "videoId" (some "v1") [])
      (.mk atomNS "title" (some "Hello") []) nsDoc2 (.mk ytNS "videoId" (some "v2") [])
      (.mk atomNS "title" (some "World") []) 42 "boom" "boom2" "n1" "n2" true 100 []
      rfl rfl rfl rfl rfl
    exact h2.2.2 (by decide) rfl⟩

/-- Whether one subscribe attempt got the accepted status (HTTP 202) from
the hub; any other status or a network error is retryable. -/
def isAccepted : AttemptOutcome → Bool
  | .status code _ => code == 202
  | .netError _ => false

/-- When every attempt is non-accepted the loop runs through all remaining
attempts and reports failure. -/
theorem subscribeLoop_all_fail (f : Nat → AttemptOutcome)
    (h : ∀ i, isAccepted (f i) = false) :
    ∀ remaining attempt, subscribeLoop f attempt remaining = (false, attempt + remaining) := by
  intro remaining
  induction remaining with
  | zero => intro a; simp [subscribeLoop]
  | succ r ih =>
    intro a
    have hf := h a
    cases hfa : f a with
    | status code body =>
      rw [hfa] at hf
      simp only [isAccepted, beq_eq_false_iff_ne] at hf
      simp only [subscribeLoop, hfa]
      rw [if_neg hf, ih (a + 1)]
      exact Prod.ext rfl (by omega)
    | netError m =>
      simp only [subscribeLoop, hfa]
      rw [ih (a + 1)]
      exact Prod.ext rfl (by omega)

/-- subscribe_channel with a hub that never accepts makes exactly retries
attempts and returns failure. -/
theorem subscribe_channel_all_fail (f : Nat → AttemptOutcome)
    (h : ∀ i, isAccepted (f i) = false) (retries : Nat) :
    subscribe_channel f retries = (false, retries) := by
  rw [subscribe_channel, subscribeLoop_all_fail f h retries 0]
  simp

/-- Keys of the add and remove invocations of the same channel id differ
(their command-name components have different lengths). -/
theorem monitorKey_add_ne_remove (ctxChan : Nat) (c : String) (now1 now2 : Nat) :
    monitorKey ctxChan "add" "youtube" c now1 ≠ monitorKey ctxChan "remove" "youtube" c now2 := by
  intro h
  simp only [monitorKey, Prod.mk.injEq] at h
  have h2 := congrArg String.length h.2.1
  have l1 : ("monitor-" : String).length = 8 := by decide
  have l2 : ("add" : String).length = 3 := by decide
  have l3 : ("-" : String).length = 1 := by decide
  have l4 : ("youtube" : String).length = 7 := by decide
  have l5 : ("remove" : String).length = 6 := by decide
  simp only [String.length_append, l1, l2, l3, l4, l5] at h2
  omega

/-- C5: when every subscribe handshake attempt is non-accepted (or a
network error), the add operation makes exactly the configured 3 attempts
before reporting failure, and the channel id stays in the in-memory and
persisted monitored lists (the append-and-persist is not rolled back). -/
theorem C5_subscribe_failure_exhausts_and_persists (webhookUrl : String) (ctxChan : Nat)
    (c nonce : String) (now : Nat) (subOutcome : Nat → AttemptOutcome)
    (unsub : AttemptOutcome) (st : MonState) (hc : c ∉ st.channels)
    (hfresh : keyInCache st.cache (toString ctxChan)
      (monitorKey ctxChan "add" "youtube" c now) = false)
    (hfail : ∀ i, isAccepted (subOutcome i) = false) :
    monitor webhookUrl ctxChan "add" "youtube" c nonce now subOutcome unsub st =
      (⟨st.channels ++ [c], st.channels ++ [c],
        cacheAppend st.cache (toString ctxChan)
          (monitorKey ctxChan "add" "youtube" c now, nonce)⟩,
       ["Failed to subscribe to " ++ c ++ " after retries. Check logs."],
       List.replicate 3 (subRequest webhookUrl c)) := by
  have hplat : pyLower "youtube" = "youtube" := by decide
  have hadd : pyLower "add" = "add" := by decide
  have hsub := subscribe_channel_all_fail subOutcome hfail 3
  simp [monitor, hfresh, hplat, hadd, hc, hsub]

/-- C5 witness: a hub that always reports a network error at a concrete add. -/
theorem C5_subscribe_failure_exhausts_and_persists_witness :
    monitor "http://cb" 7 "add" "youtube" "UC1" "n" 50 (fun _ => .netError "down")
        (.netError "x") ⟨["UC0"], ["UC0"], []⟩ =
      (⟨["UC0", "UC1"], ["UC0", "UC1"],
        [("7", [(("7", "monitor-add-youtube-UC1", 5), "n")])]⟩,
       ["Failed to subscribe to UC1 after retries. Check logs."],
       List.replicate 3 (subRequest "http://cb" "UC1")) :=
  C5_subscribe_failure_exhausts_and_persists "http://cb" 7 "UC1" "n" 50
    (fun _ => .netError "down") (.netError "x") ⟨["UC0"], ["UC0"], []⟩
    (by decide) rfl (fun _ => rfl)

/-- C6: adding a channel id already present replies AlreadyMonitored
(Channel ... is already monitored), issues no hub request, and leaves the
in-memory and persisted lists unchanged. -/
theorem C6_add_duplicate_rejected (webhookUrl : String) (ctxChan : Nat) (c nonce : String)
    (now : Nat) (subOutcome : Nat → AttemptOutcome) (unsub : AttemptOutcome) (st : MonState)
    (hmem : c ∈ st.channels)
    (hfresh : keyInCache st.cache (toString ctxChan)
      (monitorKey ctxChan "add" "youtube" c now) = false) :
    monitor webhookUrl ctxChan "add" "youtube" c nonce now subOutcome unsub st =
      (⟨st.channels, st.persisted,
        cacheAppend st.cache (toString ctxChan)
          (monitorKey ctxChan "add" "youtube" c now, nonce)⟩,
       ["Channel " ++ c ++ " is already monitored"], []) := by
  have hplat : pyLower "youtube" = "youtube" := by decide
  have hadd : pyLower "add" = "add" := by decide
  simp [monitor, hfresh, hplat, hadd, hmem]

/-- C6 witness: a concrete duplicate add. -/
theorem C6_add_duplicate_rejected_witness :
    monitor "http://cb" 7 "add" "youtube" "UC1" "n" 50 (fun _ => .netError "down")
        (.netError "x") ⟨["UC1"], ["UC1"], []⟩ =
      (⟨["UC1"], ["UC1"], [("7", [(("7", "monitor-add-youtube-UC1", 5), "n")])]⟩,
       ["Channel UC1 is already monitored"], []) :=
  C6_add_duplicate_rejected "http://cb" 7 "UC1" "n" 50 (fun _ => .netError "down")
    (.netError "x") ⟨["UC1"], ["UC1"], []⟩ (by decide) rfl

/-- C7: adding a channel id not yet monitored and then removing it restores
the in-memory and persisted lists to exactly the prior list, other entries
and their order untouched. -/
theorem C7_add_then_remove_restores (webhookUrl : String) (ctxChan : Nat)
    (c nonce1 nonce2 : String) (now1 now2 : Nat) (subOutcome : Nat → AttemptOutcome)
    (unsub1 unsub2 : AttemptOutcome) (st : MonState) (hc : c ∉ st.channels)
    (hA : keyInCache st.cache (toString ctxChan)
      (monitorKey ctxChan "add" "youtube" c now1) = false)
    (hR : keyInCache st.cache (toString ctxChan)
      (monitorKey ctxChan "remove" "youtube" c now2) = false) :
    ((monitor webhookUrl ctxChan "remove" "youtube" c nonce2 now2 subOutcome unsub2
        (monitor webhookUrl ctxChan "add" "youtube" c nonce1 now1 subOutcome unsub1
          st).1).1).channels = st.channels ∧
    ((monitor webhookUrl ctxChan "remove" "youtube" c nonce2 now2 subOutcome unsub2
        (monitor webhookUrl ctxChan "add" "youtube" c nonce1 now1 subOutcome unsub1
          st).1).1).persisted = st.channels := by
  have hplat : pyLower "youtube" = "youtube" := by decide
  have hadd : pyLower "add" = "add" := by decide
  have hrem : pyLower "remove" = "remove" := by decide
  have hstA : (monitor webhookUrl ctxChan "add" "youtube" c nonce1 now1 subOutcome unsub1
      st).1 =
      ⟨st.channels ++ [c], st.channels ++ [c],
       cacheAppend st.cache (toString ctxChan)
         (monitorKey ctxChan "add" "youtube" c now1, nonce1)⟩ := by
    simp [monitor, hA, hplat, hadd, hc]
  rw [hstA]
  have hR2 : keyInCache
      (cacheAppend st.cache (toString ctxChan)
        (monitorKey ctxChan "add" "youtube" c now1, nonce1))
      (toString ctxChan) (monitorKey ctxChan "remove" "youtube" c now2) = false := by
    rw [keyInCache_cacheAppend, hR]
    simp [monitorKey_add_ne_remove ctxChan c now1 now2]
  have herase : (st.channels ++ [c]).erase c = st.channels := by
    rw [List.erase_append_right _ hc]
    simp
  constructor <;> simp [monitor, hR2, hplat, hrem, herase]

/-- C7 witness: add then remove of UC1 over the one-entry list UC0. -/
theorem C7_add_then_remove_restores_witness :
    ((monitor "http://cb" 7 "remove" "youtube" "UC1" "n2" 50 (fun _ => .netError "down")
        (.netError "x")
        (monitor "http://cb" 7 "add" "youtube" "UC1" "n1" 50 (fun _ => .netError "down")
          (.netError "x") ⟨["UC0"], ["UC0"], []⟩).1).1).channels = ["UC0"] ∧
    ((monitor "http://cb" 7 "remove" "youtube" "UC1" "n2" 50 (fun _ => .netError "down")
        (.netError "x")
        (monitor "http://cb" 7 "add" "youtube" "UC1" "n1" 50 (fun _ => .netError "down")
          (.netError "x") ⟨["UC0"], ["UC0"], []⟩).1).1).persisted = ["UC0"] :=
  C7_add_then_remove_restores "http://cb" 7 "UC1" "n1" "n2" 50 50
    (fun _ => .netError "down") (.netError "x") (.netError "x") ⟨["UC0"], ["UC0"], []⟩
    (by decide) rfl rfl

/-- C10: every chat command is deduplicated: when the command's message key
(invoking channel, command name — for monitor including the action,
platform and channel-id arguments — and 10-second bucket) is already in the
sent_messages cache, the invocation returns at once, sending no reply,
leaving the cache unchanged, and for monitor touching neither the monitored
list nor the hub. -/
theorem C10_commands_deduplicated (ctxChan : Nat) (nonce : String) (now : Nat)
    (cpu mem lat : String) (sendOk : Bool) (sendErr : String) (configChan : Nat)
    (channelFound : Bool) (channels : List String)
    (statusOutcome : String → Nat → AttemptOutcome) (postOutcome : Nat → AttemptOutcome)
    (webhookUrl action platform channel_id : String) (subOutcome : Nat → AttemptOutcome)
    (unsub : AttemptOutcome) (cache : SentCache) (st : MonState) :
    (keyInCache cache (toString ctxChan) (toString ctxChan, "ping", now / 10) = true →
      ping ctxChan nonce now cpu mem lat sendOk sendErr cache = (cache, [])) ∧
    (keyInCache cache (toString ctxChan) (toString ctxChan, "test", now / 10) = true →
      test ctxChan nonce now configChan channelFound sendOk sendErr cache = (cache, [])) ∧
    (keyInCache cache (toString ctxChan) (toString ctxChan, "status", now / 10) = true →
      status ctxChan nonce now channels statusOutcome cache = (cache, [])) ∧
    (keyInCache cache (toString ctxChan) (toString ctxChan, "testwebhook", now / 10) = true →
      testwebhook ctxChan nonce now postOutcome cache = (cache, [])) ∧
    (keyInCache st.cache (toString ctxChan)
        (monitorKey ctxChan action platform channel_id now) = true →
      monitor webhookUrl ctxChan action platform channel_id nonce now subOutcome unsub st =
        (st, [], [])) := by
  refine ⟨fun h => ?_, fun h => ?_, fun h => ?_, fun h => ?_, fun h => ?_⟩
  · simp [ping, h]
  · simp [test, h]
  · simp [status, h]
  · simp [testwebhook, h]
  · simp [monitor, h]

/-- Cache preloaded with the keys of all five commands for channel 7 in
bucket 5. -/
def dedupCacheW : SentCache :=
  [("7", [(("7", "ping", 5), "w1"), (("7", "test", 5), "w2"), (("7", "status", 5), "w3"),
          (("7", "testwebhook", 5), "w4"), (("7", "monitor-add-youtube-UC1", 5), "w5")])]

/-- C10 witness: each command invoked against the preloaded cache returns
at once with no reply and no mutation. -/
theorem C10_commands_deduplicated_witness :
    ping 7 "n" 50 "1" "2" "3" true "e" dedupCacheW = (dedupCacheW, []) ∧
    test 7 "n" 50 9 true true "e" dedupCacheW = (dedupCacheW, []) ∧
    status 7 "n" 50 ["UC0"] (fun _ _ => .netError "down") dedupCacheW = (dedupCacheW, []) ∧
    testwebhook 7 "n" 50 (fun _ => .netError "down") dedupCacheW = (dedupCacheW, []) ∧
    monitor "http://cb" 7 "add" "youtube" "UC1" "n" 50 (fun _ => .netError "down")
        (.netError "x") ⟨["UC0"], ["UC0"], dedupCacheW⟩ =
      (⟨["UC0"], ["UC0"], dedupCacheW⟩, [], []) := by
  have h := C10_commands_deduplicated 7 "n" 50 "1" "2" "3" true "e" 9 true ["UC0"]
    (fun _ _ => .netError "down") (fun _ => .netError "down") "http://cb" "add" "youtube"
    "UC1" (fun _ => .netError "down") (.netError "x") dedupCacheW
    ⟨["UC0"], ["UC0"], dedupCacheW⟩
  exact ⟨h.1 (by decide), h.2.1 (by decide), h.2.2.1 (by decide), h.2.2.2.1 (by decide),
    h.2.2.2.2 (by decide)⟩

end YTWebhook
